import Mathlib

/-!
# Verification of the web3 workshop wallet app

Shallow embedding of the repository's wallet bridge (`src/lib/web3.ts`,
the unnamed source file) and session shell (`src/App.tsx`), with theorems
settling the specification's claims.

Modelling conventions:
* The browser environment's optional `window.ethereum` object becomes
  `Env.ethereum : Option EthereumProvider`.
* The provider's responses are modelled as data: its answer to an
  `eth_requestAccounts` request and, for the `BrowserProvider.getBalance`
  RPC round trip, the raw wei balance per address.  A raised fault is an
  `Except.error` carrying the fault's message (JS `Error.message`).
* The JS cast `(... ) as string[]` can produce a null/undefined value, so
  the accounts answer is `Option (List String)` (`none` models a falsy
  result caught by the code's `!accounts` check).
* Each distinct `throw` site of the code becomes a constructor of
  `ConnectError`; the constructor carries the exact message string the
  code builds for it (after the surrounding catch block's rewrapping).
* `connectWallet` additionally returns the list of provider request
  methods it invoked, so "never invokes the provider" is expressible.
-/

/-- One possible answer of the injected provider to `eth_requestAccounts`:
either a raised fault (message) or a result, which the code casts to
`string[]` (`none` = falsy cast result). -/
structure EthereumProvider where
  /-- Answer to `request { method := eth_requestAccounts }`. -/
  requestAccounts : Except String (Option (List String))
  /-- Raw wei balance served for `BrowserProvider(window.ethereum).getBalance a`
  (or a raised fault). -/
  nativeBalance : String → Except String Nat

/-- The execution environment: `window.ethereum` may be absent. -/
structure Env where
  ethereum : Option EthereumProvider

/-- `checkMetaMask`: `typeof window.ethereum !== 'undefined'`. -/
def checkMetaMask (env : Env) : Bool :=
  env.ethereum.isSome

/-- Error outcomes of `connectWallet`, one constructor per throw site,
carrying the message the code throws there. -/
inductive ConnectError where
  /-- `throw new Error('MetaMask is not installed. ...')` before the try. -/
  | providerUnavailable (message : String)
  /-- `throw new Error('No accounts found. ...')` on an empty/falsy account
  list, rewrapped by the catch into `Failed to connect wallet: ...`. -/
  | noAccounts (message : String)
  /-- Any other provider-raised fault, rewrapped by the catch. -/
  | providerError (message : String)
  deriving DecidableEq, Repr

/-- The message of the error `connectWallet` finally throws. -/
def ConnectError.message : ConnectError → String
  | .providerUnavailable m => m
  | .noAccounts m => m
  | .providerError m => m

/-- Prefix the catch block of `connectWallet` puts on rewrapped messages. -/
def connectFailMsg (inner : String) : String :=
  "Failed to connect wallet: " ++ inner

/-- Message of the `No accounts found` throw after the catch rewraps it. -/
def noAccountsMessage : String :=
  connectFailMsg "No accounts found. Please connect MetaMask."

/-- `connectWallet`: checks MetaMask presence, requests accounts, throws on
an empty list, returns `accounts[0]`.  Second component: the provider
request methods invoked. -/
def connectWallet (env : Env) : Except ConnectError String × List String :=
  match env.ethereum with
  | none =>
      (.error (.providerUnavailable
        "MetaMask is not installed. Please install MetaMask extension."), [])
  | some p =>
      match p.requestAccounts with
      | .error m => (.error (.providerError (connectFailMsg m)), ["eth_requestAccounts"])
      | .ok none => (.error (.noAccounts noAccountsMessage), ["eth_requestAccounts"])
      | .ok (some accounts) =>
          match accounts with
          | [] => (.error (.noAccounts noAccountsMessage), ["eth_requestAccounts"])
          | a :: _ => (.ok a, ["eth_requestAccounts"])

/-- `formatAddress`: unchanged when falsy or shorter than 10, else
`substring(0, 6) + "..." + substring(length - 4)`. -/
def formatAddress (address : String) : String :=
  if address.isEmpty || address.length < 10 then
    address
  else
    String.mk (address.data.take 6) ++ "..." ++
      String.mk (address.data.drop (address.data.length - 4))

/-- Modelled from the spec: the ethers library's `formatEther` is not part
of the repository's sources.  Per the spec it "converts to the
human-readable unit using a fixed 18-decimal exponent, returns as a
string", with `10^18` wei rendering as `"1.0"`: integer part, a dot, and
the 18 zero-padded fractional digits with trailing zeros trimmed down to
at least one digit. -/
def formatEther (wei : Nat) : String :=
  let intStr := toString (wei / 10 ^ 18)
  let fracStr := toString (wei % 10 ^ 18)
  let fracPadded := List.replicate (18 - fracStr.length) '0' ++ fracStr.data
  let fracTrimmed := (fracPadded.reverse.dropWhile (· = '0')).reverse
  intStr ++ "." ++ String.mk (if fracTrimmed = [] then ['0'] else fracTrimmed)

/-- `getBalance`: checks MetaMask presence, reads the native balance via
the provider, converts with `formatEther`; faults rewrapped. -/
def getBalance (env : Env) (address : String) : Except String String :=
  match env.ethereum with
  | none => .error "MetaMask is not installed."
  | some p =>
      match p.nativeBalance address with
      | .error m => .error ("Failed to fetch balance: " ++ m)
      | .ok balance => .ok (formatEther balance)

/-!
## Session Shell (`src/App.tsx`)

The component's two `useState` hooks become `SessionState`; the browser's
local key/value store (only the `userAddress` key is ever used) becomes
`LocalStorage`.  The mount effect, `handleLoginSuccess` and `handleLogout`
become state transformers; none of them touches the wallet provider, and
`sessionStep` records the provider request methods each one invokes (an
empty list throughout, mirroring the source, in which `App.tsx` makes no
provider call). -/

/-- The two `useState` hooks of the `App` component. -/
structure SessionState where
  isLoggedIn : Bool
  userAddress : Option String
  deriving DecidableEq, Repr

/-- The local persistent store, restricted to its single key
`userAddress` (`none` = key absent, `getItem` returns null). -/
structure LocalStorage where
  userAddress : Option String
  deriving DecidableEq, Repr

/-- `useState(false)` / `useState<string | null>(null)`: the state a
freshly mounted `App` starts from. -/
def initialSession : SessionState :=
  { isLoggedIn := false, userAddress := none }

/-- The mount effect: read `localStorage.getItem('userAddress')` and, if
truthy (non-null and non-empty), set the address and mark logged in. -/
def restoreSession (st : SessionState) (store : LocalStorage) : SessionState :=
  match store.userAddress with
  | none => st
  | some savedAddress =>
      if savedAddress.isEmpty then st
      else { userAddress := some savedAddress, isLoggedIn := true }

/-- `handleLoginSuccess`: set the address, mark logged in, persist.  The
previous state and store are overwritten wholesale. -/
def handleLoginSuccess (address : String) (_st : SessionState)
    (_store : LocalStorage) : SessionState × LocalStorage :=
  ({ userAddress := some address, isLoggedIn := true },
   { userAddress := some address })

/-- `handleLogout`: clear both state fields, delete the persisted key. -/
def handleLogout (_st : SessionState) (_store : LocalStorage) :
    SessionState × LocalStorage :=
  ({ isLoggedIn := false, userAddress := none },
   { userAddress := none })

/-- The session shell's operations. -/
inductive SessionOp where
  | restore
  | login (address : String)
  | logout
  deriving DecidableEq, Repr

/-- One operation on the session shell; the second component lists the
wallet-provider request methods the operation invokes (none of the
`App.tsx` handlers performs a provider call). -/
def sessionStep (s : SessionState × LocalStorage) (op : SessionOp) :
    (SessionState × LocalStorage) × List String :=
  match op with
  | .restore => ((restoreSession s.1 s.2, s.2), [])
  | .login a => (handleLoginSuccess a s.1 s.2, [])
  | .logout => (handleLogout s.1 s.2, [])

/-- Run a sequence of session operations. -/
def runSession (s : SessionState × LocalStorage) :
    List SessionOp → SessionState × LocalStorage
  | [] => s
  | op :: ops => runSession (sessionStep s op).1 ops

/-!
## Helper lemmas about `formatAddress`
-/

/-- Strings shorter than 10 characters pass through `formatAddress`. -/
theorem formatAddress_of_lt (s : String) (h : s.length < 10) :
    formatAddress s = s := by
  have hc : (s.isEmpty || decide (s.length < 10)) = true := by
    simp only [Bool.or_eq_true, decide_eq_true_eq]
    exact Or.inr h
  unfold formatAddress
  rw [if_pos hc]

/-- Strings of 10 or more characters truncate to first 6, dots, last 4. -/
theorem formatAddress_of_ge (s : String) (h : 10 ≤ s.length) :
    formatAddress s = String.mk (s.data.take 6) ++ "..." ++
      String.mk (s.data.drop (s.data.length - 4)) := by
  have hc : ¬ ((s.isEmpty || decide (s.length < 10)) = true) := by
    simp only [Bool.or_eq_true, decide_eq_true_eq]
    rintro (he | hlt)
    · rw [(String.isEmpty_iff s).mp he] at h
      exact absurd h (by decide)
    · omega
  unfold formatAddress
  rw [if_neg hc]

/-- The truncated form has exactly 6 + 3 + 4 = 13 characters. -/
theorem formatAddress_length_of_ge (s : String) (h : 10 ≤ s.length) :
    (formatAddress s).length = 13 := by
  rw [formatAddress_of_ge s h]
  rw [String.length_append, String.length_append]
  have hd : s.length = s.data.length := rfl
  have h6 : (String.mk (s.data.take 6)).length = 6 := by
    show (s.data.take 6).length = 6
    rw [List.length_take]
    omega
  have h4 : (String.mk (s.data.drop (s.data.length - 4))).length = 4 := by
    show (s.data.drop (s.data.length - 4)).length = 4
    rw [List.length_drop]
    omega
  rw [h6, h4]
  decide

/-!
## Claims
-/

/-- C1: when no wallet provider object is present (`checkMetaMask` is
false), `connectWallet` fails with the provider-unavailable error
("MetaMask is not installed. ...") and invokes no provider request. -/
theorem connectWallet_provider_unavailable (env : Env)
    (h : checkMetaMask env = false) :
    connectWallet env =
      (.error (.providerUnavailable
        "MetaMask is not installed. Please install MetaMask extension."), []) := by
  unfold connectWallet
  match henv : env.ethereum with
  | none => rfl
  | some p => rw [checkMetaMask, henv] at h; simp at h

/-- Witness for C1: the environment with `window.ethereum` absent. -/
theorem connectWallet_provider_unavailable_witness :
    connectWallet { ethereum := none } =
      (.error (.providerUnavailable
        "MetaMask is not installed. Please install MetaMask extension."), []) :=
  connectWallet_provider_unavailable { ethereum := none } rfl

/-- C2: whenever the provider answers `eth_requestAccounts` with a
non-empty account list, `connectWallet` succeeds with exactly the first
element of that list (and made exactly that one request). -/
theorem connectWallet_first_account (p : EthereumProvider) (a : String)
    (rest : List String) (h : p.requestAccounts = .ok (some (a :: rest))) :
    connectWallet { ethereum := some p } = (.ok a, ["eth_requestAccounts"]) := by
  simp only [connectWallet, h]

/-- Witness for C2: a provider answering `["0xABC...", "0xDEF..."]` yields
`"0xABC..."`. -/
theorem connectWallet_first_account_witness :
    connectWallet { ethereum := some ⟨.ok (some ["0xABC...", "0xDEF..."]),
      fun _ => .ok 0⟩ } = (.ok "0xABC...", ["eth_requestAccounts"]) :=
  connectWallet_first_account _ "0xABC..." ["0xDEF..."] rfl

/-- C3: an empty account list makes `connectWallet` fail with the
`noAccounts` error; that error kind is distinct from the generic
`providerError` kind, which wraps any other provider-raised fault with the
fault's message passed through. -/
theorem connectWallet_empty_accounts (p : EthereumProvider)
    (h : p.requestAccounts = .ok (some [])) :
    (connectWallet { ethereum := some p }).1 =
        .error (.noAccounts noAccountsMessage) ∧
    (∀ m, ConnectError.noAccounts noAccountsMessage ≠
        ConnectError.providerError m) ∧
    (∀ q : EthereumProvider, ∀ m, q.requestAccounts = .error m →
        (connectWallet { ethereum := some q }).1 =
          .error (.providerError (connectFailMsg m))) := by
  refine ⟨?_, ?_, ?_⟩
  · simp only [connectWallet, h]
  · intro m hm
    cases hm
  · intro q m hq
    simp only [connectWallet, hq]

/-- Witness for C3: a provider answering the empty list. -/
theorem connectWallet_empty_accounts_witness :
    (connectWallet { ethereum := some ⟨.ok (some []), fun _ => .ok 0⟩ }).1 =
      .error (.noAccounts noAccountsMessage) :=
  (connectWallet_empty_accounts ⟨.ok (some []), fun _ => .ok 0⟩ rfl).1

/-- C5: `formatAddress` returns strings shorter than 10 characters
unchanged, and otherwise returns the first 6 characters, `"..."`, and the
last 4 characters — exactly 13 characters. -/
theorem formatAddress_spec (s : String) :
    (s.length < 10 → formatAddress s = s) ∧
    (10 ≤ s.length →
      formatAddress s = String.mk (s.data.take 6) ++ "..." ++
        String.mk (s.data.drop (s.data.length - 4)) ∧
      (formatAddress s).length = 13) := by
  exact ⟨formatAddress_of_lt s,
    fun h => ⟨formatAddress_of_ge s h, formatAddress_length_of_ge s h⟩⟩

/-- Witness for C5: a 14-character address truncates to 13 characters. -/
theorem formatAddress_spec_witness :
    formatAddress "0x12345678abcd" = String.mk ("0x12345678abcd".data.take 6) ++ "..." ++
      String.mk ("0x12345678abcd".data.drop ("0x12345678abcd".data.length - 4)) ∧
    (formatAddress "0x12345678abcd").length = 13 :=
  (formatAddress_spec "0x12345678abcd").2 (by decide)

/-- C6: a provider reporting a raw native balance of `10^18` wei makes
`getBalance` succeed with the string `"1.0"`. -/
theorem getBalance_one_ether (p : EthereumProvider) (address : String)
    (h : p.nativeBalance address = .ok 1000000000000000000) :
    getBalance { ethereum := some p } address = .ok "1.0" := by
  simp only [getBalance, h]
  exact congrArg Except.ok (by decide)

/-- Witness for C6: a concrete provider serving exactly one ether. -/
theorem getBalance_one_ether_witness :
    getBalance { ethereum := some ⟨.ok none,
      fun _ => .ok 1000000000000000000⟩ } "0xabc" = .ok "1.0" :=
  getBalance_one_ether _ "0xabc" rfl

/-- C7 counterexample: the empty string is a persisted value found by the
startup read (`getItem` returns it, not null), yet the restore effect's
truthiness check skips it, leaving the session unauthenticated. -/
theorem restore_empty_persisted_unauthenticated :
    (restoreSession initialSession { userAddress := some "" }).isLoggedIn
      = false := by
  decide

/-- C7 (amended): every non-empty persisted address found at startup
restores an authenticated session holding exactly that address, and the
restore operation performs no wallet-provider request. -/
theorem restore_persisted_address (a : String) (h : a ≠ "") :
    (sessionStep (initialSession, { userAddress := some a }) .restore).1.1 =
      { isLoggedIn := true, userAddress := some a } ∧
    (sessionStep (initialSession, { userAddress := some a }) .restore).2
      = [] := by
  have hemp : a.isEmpty = false := by
    cases he : a.isEmpty with
    | false => rfl
    | true => exact absurd ((String.isEmpty_iff a).mp he) h
  refine ⟨?_, rfl⟩
  simp [sessionStep, restoreSession, hemp]

/-- Witness for C7 (amended): the persisted address `"0x1234...5678"`. -/
theorem restore_persisted_address_witness :
    (sessionStep (initialSession, { userAddress := some "0x1234...5678" })
        .restore).1.1 =
      { isLoggedIn := true, userAddress := some "0x1234...5678" } :=
  (restore_persisted_address "0x1234...5678" (by decide)).1

/-- C8: `handleLogout` clears both session fields and deletes the
persisted key, so a fresh startup read (the mount effect on a fresh
state) yields `isLoggedIn = false` and `userAddress = none`. -/
theorem logout_fresh_startup (st : SessionState) (store : LocalStorage) :
    (handleLogout st store).1.isLoggedIn = false ∧
    (handleLogout st store).1.userAddress = none ∧
    (handleLogout st store).2.userAddress = none ∧
    (restoreSession initialSession (handleLogout st store).2).isLoggedIn
      = false ∧
    (restoreSession initialSession (handleLogout st store).2).userAddress
      = none :=
  ⟨rfl, rfl, rfl, rfl, rfl⟩

/-- Any single session shell operation preserves "authenticated implies an
address is present". -/
theorem sessionStep_preserves_inv (s : SessionState × LocalStorage)
    (op : SessionOp)
    (hs : s.1.isLoggedIn = true → s.1.userAddress ≠ none) :
    (sessionStep s op).1.1.isLoggedIn = true →
      (sessionStep s op).1.1.userAddress ≠ none := by
  cases op with
  | restore =>
      simp only [sessionStep]
      unfold restoreSession
      cases hstore : s.2.userAddress with
      | none => exact hs
      | some a =>
          dsimp only
          cases he : a.isEmpty with
          | true => simpa using hs
          | false => simp
  | login a =>
      simp only [sessionStep, handleLoginSuccess]
      intro _
      simp
  | logout =>
      simp only [sessionStep, handleLogout]
      intro hcontra
      exact absurd hcontra (by simp)

/-- C9: every session state reachable from a fresh mount by any sequence
of session shell operations (restore, login, logout) satisfies the
invariant: authenticated implies the address field is present. -/
theorem session_shell_invariant (ops : List SessionOp) (store : LocalStorage)
    (h : (runSession (initialSession, store) ops).1.isLoggedIn = true) :
    (runSession (initialSession, store) ops).1.userAddress ≠ none := by
  have main : ∀ (l : List SessionOp) (s : SessionState × LocalStorage),
      (s.1.isLoggedIn = true → s.1.userAddress ≠ none) →
      (runSession s l).1.isLoggedIn = true →
        (runSession s l).1.userAddress ≠ none := by
    intro l
    induction l with
    | nil => intro s hs; exact hs
    | cons op ops ih =>
        intro s hs
        simp only [runSession]
        exact ih (sessionStep s op).1 (sessionStep_preserves_inv s op hs)
  refine main ops (initialSession, store) ?_ h
  intro hc
  simp [initialSession] at hc

/-- Witness for C9: after a login the invariant's hypothesis holds and the
address is present. -/
theorem session_shell_invariant_witness :
    (runSession (initialSession, { userAddress := none })
        [SessionOp.login "0xabc"]).1.userAddress ≠ none :=
  session_shell_invariant [SessionOp.login "0xabc"]
    { userAddress := none } rfl

/-- C10: `formatAddress` is idempotent on every string: its 13-character
truncated output maps to itself, and short strings pass through. -/
theorem formatAddress_idempotent (s : String) :
    formatAddress (formatAddress s) = formatAddress s := by
  rcases Nat.lt_or_ge s.length 10 with hlt | hge
  · rw [formatAddress_of_lt s hlt, formatAddress_of_lt s hlt]
  · have hdlen : s.length = s.data.length := rfl
    have ht : (s.data.take 6).length = 6 := by
      rw [List.length_take]; omega
    have hl : (s.data.drop (s.data.length - 4)).length = 4 := by
      rw [List.length_drop]; omega
    have hT := formatAddress_of_ge s hge
    have hTlen : (formatAddress s).length = 13 := formatAddress_length_of_ge s hge
    rw [formatAddress_of_ge _ (by omega)]
    have hdata : (formatAddress s).data =
        (s.data.take 6 ++ ("...").data) ++ s.data.drop (s.data.length - 4) := by
      rw [hT]
      rfl
    have h9 : (s.data.take 6 ++ ("...").data).length = 9 := by
      rw [List.length_append, ht]
      rfl
    have htake : ((s.data.take 6 ++ ("...").data) ++
        s.data.drop (s.data.length - 4)).take 6 = s.data.take 6 := by
      rw [List.append_assoc]
      exact List.take_left' ht
    have hlen13 : ((s.data.take 6 ++ ("...").data) ++
        s.data.drop (s.data.length - 4)).length = 13 := by
      rw [List.length_append, h9, hl]
    have hdrop : ((s.data.take 6 ++ ("...").data) ++
        s.data.drop (s.data.length - 4)).drop
          (((s.data.take 6 ++ ("...").data) ++
            s.data.drop (s.data.length - 4)).length - 4) =
        s.data.drop (s.data.length - 4) := by
      rw [hlen13]
      exact List.drop_left' h9
    rw [hdata, htake, hdrop, hT]
